import Mathlib

/-!
Verification of the Smart Grocery Shopping Assistant client.

Shallow embedding of the two source components:
* `App` (chat-history persistence in `localStorage`, the expiry-check flow,
  and the grocery-list synchronizer effect), and
* `ChatBox` (the chat submission flow `handleSendClick`).

JavaScript runtime values that cross the claims (response bodies, the
persisted blob) are modelled by an explicit `Json` type; JavaScript
truthiness of optional string/number fields is modelled explicitly.
-/

/-- Role of a chat turn; the TS union type `"user" | "ai"`. -/
inductive Role where
  | user
  | ai
deriving DecidableEq, Repr

/-- The TS interface `ChatMessage`: `reminders?: string[]` is optional, so it
is an `Option`; `none` models an absent field. -/
structure ChatMessage where
  role : Role
  content : String
  reminders : Option (List String)
deriving DecidableEq, Repr

/-- A JSON value, used for response bodies and the persisted blob. -/
inductive Json where
  | null
  | bool (b : Bool)
  | num (n : Int)
  | str (s : String)
  | arr (elems : List Json)
  | obj (fields : List (String × Json))

mutual

/-- JavaScript string conversion `String(v)` as used by template
interpolation: strings stay themselves, arrays join their elements with
commas (where `null` renders empty inside a join), plain objects render
as `[object Object]`. -/
def jsToString : Json → String
  | .null => "null"
  | .bool b => cond b "true" "false"
  | .num n => toString n
  | .str s => s
  | .arr es => String.intercalate "," (jsJoinElems es)
  | .obj _ => "[object Object]"

/-- Elements of `Array.prototype.join`: `null` elements render as the empty
string. -/
def jsJoinElems : List Json → List String
  | [] => []
  | .null :: es => "" :: jsJoinElems es
  | e :: es => jsToString e :: jsJoinElems es

end

/-- Escape one character as inside a JSON string literal
(`JSON.stringify` semantics for the characters the app can produce). -/
def escapeJsonChar (c : Char) : String :=
  if c = '"' then "\\\""
  else if c = '\\' then "\\\\"
  else if c = '\n' then "\\n"
  else if c = '\t' then "\\t"
  else if c = '\r' then "\\r"
  else String.singleton c

/-- A JSON string literal: quotes around the escaped characters. -/
def escapeJsonString (s : String) : String :=
  "\"" ++ String.join (s.data.map escapeJsonChar) ++ "\""

/-- A run of `n` spaces, for `JSON.stringify(_, null, 2)` indentation. -/
def spaces (n : Nat) : String :=
  String.mk (List.replicate n ' ')

/-- JavaScript whitespace for `String.prototype.trim` (the characters the
app can meet in a textarea): space, tab, line feed, carriage return,
vertical tab, form feed. -/
def isJsWhitespace (c : Char) : Bool :=
  c = ' ' || c = '\t' || c = '\n' || c = '\r' || c = '\x0b' || c = '\x0c'

/-- `String.prototype.trim`: drop leading and trailing whitespace. -/
def jsTrim (s : String) : String :=
  String.mk (((s.data.dropWhile isJsWhitespace).reverse.dropWhile isJsWhitespace).reverse)

mutual

/-- `JSON.stringify(v, null, 2)` at nesting depth `d`: pretty printing with
two-space indentation, as used by the expiry-check dump branch. -/
def stringifyPretty : Json → Nat → String
  | .null, _ => "null"
  | .bool b, _ => cond b "true" "false"
  | .num n, _ => toString n
  | .str s, _ => escapeJsonString s
  | .arr [], _ => "[]"
  | .arr (e :: es), d =>
      "[\n" ++ String.intercalate ",\n" (stringifyElems (e :: es) (d + 1)) ++
        "\n" ++ spaces (d * 2) ++ "]"
  | .obj [], _ => "\x7b\x7d"
  | .obj (f :: fs), d =>
      "\x7b\n" ++ String.intercalate ",\n" (stringifyFields (f :: fs) (d + 1)) ++
        "\n" ++ spaces (d * 2) ++ "\x7d"

/-- Rendered, indented array elements for `stringifyPretty`. -/
def stringifyElems : List Json → Nat → List String
  | [], _ => []
  | e :: es, d => (spaces (d * 2) ++ stringifyPretty e d) :: stringifyElems es d

/-- Rendered, indented object members for `stringifyPretty`. -/
def stringifyFields : List (String × Json) → Nat → List String
  | [], _ => []
  | (k, v) :: fs, d =>
      (spaces (d * 2) ++ escapeJsonString k ++ ": " ++ stringifyPretty v d) ::
        stringifyFields fs d

end

/-! ### Conversation store (`App`) -/

/-- `handleUserMessage` in `App`: append a user turn; the object literal has
no `reminders` key, so the field is absent. -/
def handleUserMessage (conv : List ChatMessage) (message : String) : List ChatMessage :=
  conv ++ [{ role := .user, content := message, reminders := none }]

/-- `handleAiMessage` in `App`: append an assistant turn with
`reminders: reminders || []` — a missing argument defaults to the empty
list (a present list, even empty, is truthy and kept). -/
def handleAiMessage (conv : List ChatMessage) (message : String)
    (reminders : Option (List String)) : List ChatMessage :=
  conv ++ [{ role := .ai, content := message, reminders := some (reminders.getD []) }]

/-- State of the persisted `localStorage` slot under `chat_history`:
the key can be absent, hold a string `JSON.parse` rejects, or hold a
string that parses to the JSON value `j`. -/
inductive StoredVal where
  | absent
  | malformed
  | val (j : Json)

/-- `readHistory` in `App`: a missing key or a parse failure yields `[]`
(the `catch` logs and returns `[]`); a parsed value is returned only when
`Array.isArray` holds, element-wise untouched (the TS cast), else `[]`. -/
def readHistory : StoredVal → List Json
  | .absent => []
  | .malformed => []
  | .val (.arr es) => es
  | .val _ => []

/-- The string a `Role` is serialized as. -/
def Role.toStr : Role → String
  | .user => "user"
  | .ai => "ai"

/-- Serialization of one `ChatMessage` record, as `JSON.stringify` sees it:
an absent `reminders` field is omitted from the object. -/
def ChatMessage.toJson (m : ChatMessage) : Json :=
  match m.reminders with
  | none => .obj [("role", .str m.role.toStr), ("content", .str m.content)]
  | some rs => .obj [("role", .str m.role.toStr),
                     ("content", .str m.content),
                     ("reminders", .arr (rs.map .str))]

/-- `writeHistory` in `App`: store `JSON.stringify(history)`; on an
unmodified, succeeding store the slot then parses back to exactly the
serialized array. -/
def writeHistory (history : List ChatMessage) : StoredVal :=
  .val (.arr (history.map ChatMessage.toJson))

/-- Decode a JSON string array back to `List String` (inverse of the
`reminders` serialization). -/
def decodeStrList : List Json → Option (List String)
  | [] => some []
  | .str s :: es => (decodeStrList es).map (s :: ·)
  | _ => none

/-- Decode one serialized `ChatMessage` record. -/
def ChatMessage.fromJson : Json → Option ChatMessage
  | .obj [("role", .str r), ("content", .str c)] =>
      if r = "user" then some { role := .user, content := c, reminders := none }
      else if r = "ai" then some { role := .ai, content := c, reminders := none }
      else none
  | .obj [("role", .str r), ("content", .str c), ("reminders", .arr es)] =>
      match decodeStrList es with
      | some rs =>
          if r = "user" then some { role := .user, content := c, reminders := some rs }
          else if r = "ai" then some { role := .ai, content := c, reminders := some rs }
          else none
      | none => none
  | _ => none

/-- Decode a whole loaded history, element by element. -/
def decodeHistory : List Json → Option (List ChatMessage)
  | [] => some []
  | j :: js =>
      match ChatMessage.fromJson j, decodeHistory js with
      | some m, some ms => some (m :: ms)
      | _, _ => none

/-! ### Chat submission flow (`ChatBox.handleSendClick`) -/

/-- Success body of `POST /items`: `{ message?: string, count?: integer }`. -/
structure PostSuccess where
  message : Option String
  count : Option Int
deriving DecidableEq, Repr

/-- An error response the server did send: HTTP status, its status text, and
the optional `error` field of the JSON body. -/
structure ErrResponse where
  status : Int
  statusText : String
  errorField : Option String
deriving DecidableEq, Repr

/-- How a `POST /items` request can fail, after axios: `error.response`
present; request made but no response (`error.request`); or a local setup
failure carrying only `error.message`. -/
inductive PostFailure where
  | response (r : ErrResponse)
  | noResponse
  | setup (message : String)
deriving DecidableEq, Repr

/-- Outcome of the awaited `POST /items` call. -/
inductive PostResult where
  | success (s : PostSuccess)
  | failure (f : PostFailure)
deriving DecidableEq, Repr

/-- JavaScript `a || b` on an optional string: an absent or empty string is
falsy and yields the default. -/
def jsOrStr (a : Option String) (b : String) : String :=
  match a with
  | some s => if s = "" then b else s
  | none => b

/-- JavaScript `c || 0` on an optional number: absent or zero yields 0. -/
def jsOrIntZero (c : Option Int) : Int :=
  match c with
  | some n => if n = 0 then 0 else n
  | none => 0

/-- The success branch of `handleSendClick`:
`response.data.message || `Successfully added ${response.data.count || 0} items.``. -/
def successContent (s : PostSuccess) : String :=
  jsOrStr s.message ("Successfully added " ++ toString (jsOrIntZero s.count) ++ " items.")

/-- JavaScript truthiness of the optional `data.error` field. -/
def jsTruthyStr : Option String → Bool
  | some s => s ≠ ""
  | none => false

/-- The catch branch of `handleSendClick`: classify the failure into the
user-visible `errorMessage` (before the `"Error: "` prefix is attached). -/
def errorMessageOf : PostFailure → String
  | .response r =>
      if r.status = 429 then
        "API Quota Error (429): Your daily/minute limit has been reached. Please wait."
      else if jsTruthyStr r.errorField then
        "Server Error (" ++ toString r.status ++ "): " ++ r.errorField.getD ""
      else
        "HTTP Error " ++ toString r.status ++ ": " ++ r.statusText
  | .noResponse => "Network Error: The server did not respond."
  | .setup message => message

/-- The view state `handleSendClick` touches: `ChatBox`'s `question`, the
shared `isLoading` flag, and `App`'s `conversation` and `triggerFetch`. -/
structure ChatState where
  question : String
  isLoading : Bool
  conversation : List ChatMessage
  triggerFetch : Bool
deriving DecidableEq, Repr

/-- `handleSendClick`, given the outcome the awaited request would have.
Returns the state after the handler resolves, paired with whether a request
was sent. Guard: `if (!question.trim() || isLoading) return;`. On passing:
the trimmed text is appended as a user turn (`onUserMessage`), the input is
cleared, the response or error is appended as one assistant turn
(`onAiMessage`, no reminders argument), and `finally` clears loading and
calls `setTriggerFetch(true)` — a constant `true`, not a toggle. -/
def handleSendClick (st : ChatState) (result : PostResult) : ChatState × Bool :=
  if (jsTrim st.question == "") || st.isLoading then (st, false)
  else
    let message := jsTrim st.question
    let conv1 := handleUserMessage st.conversation message
    let conv2 :=
      match result with
      | .success s => handleAiMessage conv1 (successContent s) none
      | .failure f => handleAiMessage conv1 ("Error: " ++ errorMessageOf f) none
    ({ question := "", isLoading := false, conversation := conv2, triggerFetch := true }, true)

/-! ### Grocery synchronizer (`App`) -/

/-- A row of the grocery list as typed in `App` (`GroceryItemEntry`). -/
structure GroceryItemEntry where
  item : String
  expires : String
deriving DecidableEq, Repr

/-- A cached grocery record as typed in `App` (`GroceryRecord`). -/
structure GroceryRecord where
  id : Int
  items : List GroceryItemEntry
  prompt : Option String
  timestamp : Option String
  name : String
  qty : Int
  expiry : String
deriving DecidableEq, Repr

/-- `fetchGroceryList` in `App`: on success replace the cached list
wholesale with `items.data`; the `catch` only logs, leaving the cache as
it was. -/
def fetchGroceryList (result : Except String (List GroceryRecord))
    (cached : List GroceryRecord) : List GroceryRecord :=
  match result with
  | .ok items => items
  | .error _ => cached

/-- React semantics of `useEffect(fetchGroceryList, [triggerFetch])` after
mount: the effect re-runs exactly when the dependency differs from its
value at the previous render. -/
def refetchFires (prev next : Bool) : Bool :=
  prev != next

/-! ### Expiry check flow (`App.handleCheckExpiries`) -/

/-- Outcome of the awaited `GET /expiry` call: a body (where `none` models
an absent/`undefined` `response.data`), or a request failure. -/
inductive ExpiryOutcome where
  | ok (data : Option Json)
  | fail

/-- The message-selection chain of `handleCheckExpiries`, compiled from its
`if`/`else if`/`else`: a non-empty array takes the bulleted branch; an
empty array fails `length > 0` but, being `typeof "object"` and not
`null`, takes the `JSON.stringify(expiryData, null, 2)` branch, as does
any plain object; everything else (absent body, `null`, scalars) takes the
reassuring message. -/
def expiryMessage : Option Json → String
  | some (.arr (e :: es)) =>
      "Expiring items:\n\n" ++
        String.intercalate "\n" ((e :: es).map (fun item => "• " ++ jsToString item))
  | some (.arr []) => "Expiring items:\n\n" ++ stringifyPretty (.arr []) 0
  | some (.obj fs) => "Expiring items:\n\n" ++ stringifyPretty (.obj fs) 0
  | _ => "Great news! No items are expiring soon."

/-- `handleCheckExpiries`: append the fixed user prompt, then one assistant
turn — the selected expiry message on success, the fixed error text when
the request fails. -/
def handleCheckExpiries (conv : List ChatMessage) (outcome : ExpiryOutcome) : List ChatMessage :=
  let conv1 := handleUserMessage conv "Show me a list of all expiring items in the next 7 days."
  match outcome with
  | .ok d => handleAiMessage conv1 (expiryMessage d) none
  | .fail => handleAiMessage conv1 "Error fetching expiry items. Please try again." none

/-- Conversations reachable through the app's flows from the empty startup
state: user turns, completed chat submissions, completed expiry checks. -/
inductive ReachableConv : List ChatMessage → Prop where
  | init : ReachableConv []
  | user (conv : List ChatMessage) (m : String) :
      ReachableConv conv → ReachableConv (handleUserMessage conv m)
  | send (st : ChatState) (r : PostResult) :
      ReachableConv st.conversation → ReachableConv ((handleSendClick st r).1.conversation)
  | expiry (conv : List ChatMessage) (o : ExpiryOutcome) :
      ReachableConv conv → ReachableConv (handleCheckExpiries conv o)

/-! ### Helper lemmas -/

/-- Decoding inverts the string-list serialization of `reminders`. -/
theorem decodeStrList_encode (rs : List String) :
    decodeStrList (rs.map Json.str) = some rs := by
  induction rs with
  | nil => rfl
  | cons s ss ih => simp [decodeStrList, ih]

/-- Decoding one record inverts its serialization. -/
theorem fromJson_toJson (m : ChatMessage) : ChatMessage.fromJson m.toJson = some m := by
  obtain ⟨role, content, reminders⟩ := m
  cases role <;> cases reminders <;>
    simp [ChatMessage.toJson, ChatMessage.fromJson, Role.toStr, decodeStrList_encode]

/-- JavaScript `c || 0` on an optional number agrees with defaulting an
absent field to 0. -/
theorem jsOrIntZero_getD (c : Option Int) : jsOrIntZero c = c.getD 0 := by
  cases c with
  | none => rfl
  | some n =>
      by_cases h : n = 0
      · simp [jsOrIntZero, h]
      · simp [jsOrIntZero, h]

/-! ### Claim theorems -/

/-- C3: a submission whose trimmed input is empty, or attempted while a
previous one is still loading, is a complete no-op — the state (conversation
included) is unchanged and no request is sent, so at most one chat
submission is in flight at a time. -/
theorem send_guard_noop (st : ChatState) (r : PostResult)
    (h : jsTrim st.question = "" ∨ st.isLoading = true) :
    handleSendClick st r = (st, false) := by
  have hc : ((jsTrim st.question == "") || st.isLoading) = true := by
    rcases h with h | h <;> simp [h]
  simp [handleSendClick, hc]

/-- Witness for `send_guard_noop`: a whitespace-only input, idle flow. -/
theorem send_guard_noop_witness :
    (jsTrim "   " = "" ∨ (false : Bool) = true) ∧
      handleSendClick ⟨"   ", false, [], false⟩ (.success ⟨none, none⟩) =
        (⟨"   ", false, [], false⟩, false) :=
  ⟨Or.inl rfl, send_guard_noop ⟨"   ", false, [], false⟩ (.success ⟨none, none⟩) (Or.inl rfl)⟩

/-- C4: persisting any conversation and loading it back from an unmodified,
succeeding store returns exactly the serialized records, and decoding them
recovers a sequence equal to the original (round-trip law). -/
theorem persist_load_roundtrip (h : List ChatMessage) :
    readHistory (writeHistory h) = h.map ChatMessage.toJson ∧
      decodeHistory (readHistory (writeHistory h)) = some h := by
  refine ⟨rfl, ?_⟩
  show decodeHistory (h.map ChatMessage.toJson) = some h
  induction h with
  | nil => rfl
  | cons m ms ih => simp [decodeHistory, fromJson_toJson, ih]

/-- C5: `load` fails soft — a missing key or malformed blob yields the empty
sequence, and a parsed value yields non-empty history only when it is a
JSON array (everything non-array also yields the empty sequence); the
function is total, so it never throws to its caller. -/
theorem load_fails_soft :
    readHistory .absent = [] ∧ readHistory .malformed = [] ∧
      ∀ j : Json, (∃ es, j = Json.arr es ∧ readHistory (.val j) = es) ∨
        readHistory (.val j) = [] := by
  refine ⟨rfl, rfl, fun j => ?_⟩
  cases j with
  | arr es => exact Or.inl ⟨es, rfl, rfl⟩
  | null => exact Or.inr rfl
  | bool b => exact Or.inr rfl
  | num n => exact Or.inr rfl
  | str s => exact Or.inr rfl
  | obj fs => exact Or.inr rfl

/-- C8: a failed grocery refetch leaves the previously cached list exactly
as it was; only a successful response replaces it (wholesale). -/
theorem fetch_failure_keeps_cache :
    (∀ (e : String) (cached : List GroceryRecord),
        fetchGroceryList (.error e) cached = cached) ∧
      ∀ (items cached : List GroceryRecord),
        fetchGroceryList (.ok items) cached = items :=
  ⟨fun _ _ => rfl, fun _ _ => rfl⟩

/-- C1 counterexample: a success body whose `message` field is present but
empty does not have its message echoed — `message || fallback` treats the
empty string as falsy, so the count fallback is appended instead. -/
theorem success_message_counterexample :
    (⟨some "", none⟩ : PostSuccess).message = some "" ∧
      (handleSendClick ⟨"add milk", false, [], false⟩
          (.success ⟨some "", none⟩)).1.conversation =
        [⟨.user, "add milk", none⟩,
         ⟨.ai, "Successfully added 0 items.", some []⟩] ∧
      "Successfully added 0 items." ≠ "" := by
  refine ⟨rfl, ?_, by decide⟩
  decide

/-- C1 (amended): on a success response the submission appends the user turn
and exactly one assistant turn; its content is the `message` field whenever
that field is present and non-empty, and otherwise (absent or empty
message) it is `"Successfully added N items."` with `N` the `count` field
defaulting to 0 when absent. -/
theorem success_content_spec (st : ChatState) (s : PostSuccess)
    (hg : ((jsTrim st.question == "") || st.isLoading) = false) :
    (handleSendClick st (.success s)).1.conversation =
        st.conversation ++
          [⟨.user, jsTrim st.question, none⟩, ⟨.ai, successContent s, some []⟩] ∧
      (∀ m, s.message = some m → m ≠ "" → successContent s = m) ∧
      ((s.message = none ∨ s.message = some "") →
        successContent s =
          "Successfully added " ++ toString (s.count.getD 0) ++ " items.") := by
  refine ⟨?_, ?_, ?_⟩
  · simp [handleSendClick, hg, handleUserMessage, handleAiMessage]
  · intro m hm hne
    simp [successContent, jsOrStr, hm, hne]
  · rintro (hm | hm) <;> simp [successContent, jsOrStr, hm, jsOrIntZero_getD]

/-- Witness for `success_content_spec`: the guard passes on `"add milk"`,
and a `{count: 3}` body with no message appends the count confirmation. -/
theorem success_content_spec_witness :
    ((jsTrim "add milk" == "") || false) = false ∧
      (handleSendClick ⟨"add milk", false, [], false⟩
          (.success ⟨none, some 3⟩)).1.conversation =
        [⟨.user, "add milk", none⟩,
         ⟨.ai, "Successfully added 3 items.", some []⟩] := by
  refine ⟨by decide, ?_⟩
  have h := success_content_spec ⟨"add milk", false, [], false⟩ ⟨none, some 3⟩ (by decide)
  have h1 := h.1
  have h3 := h.2.2 (Or.inl rfl)
  rw [h1, h3]
  decide

/-- C9: when the success body's `message` field is present but equal to the
empty string, the count fallback is used: the assistant content is
`"Successfully added N items."` with `N` the `count` field defaulting to 0. -/
theorem empty_message_uses_fallback (s : PostSuccess) (h : s.message = some "") :
    successContent s =
      "Successfully added " ++ toString (s.count.getD 0) ++ " items." := by
  simp [successContent, jsOrStr, h, jsOrIntZero_getD]

/-- Witness for `empty_message_uses_fallback`: message `""` and absent count
yield exactly `"Successfully added 0 items."`. -/
theorem empty_message_uses_fallback_witness :
    (⟨some "", none⟩ : PostSuccess).message = some "" ∧
      successContent ⟨some "", none⟩ = "Successfully added 0 items." :=
  ⟨rfl, (empty_message_uses_fallback ⟨some "", none⟩ rfl).trans (by decide)⟩

/-- C2 counterexample: an error response whose body carries an `error` field
equal to the empty string is not surfaced as a server error — `data.error`
is falsy, so the generic HTTP branch is taken instead. -/
theorem error_field_counterexample :
    (⟨400, "BAD REQUEST", some ""⟩ : ErrResponse).errorField = some "" ∧
      (handleSendClick ⟨"add milk", false, [], false⟩
          (.failure (.response ⟨400, "BAD REQUEST", some ""⟩))).1.conversation =
        [⟨.user, "add milk", none⟩,
         ⟨.ai, "Error: HTTP Error 400: BAD REQUEST", some []⟩] ∧
      "Error: HTTP Error 400: BAD REQUEST" ≠ "Error: Server Error (400): " := by
  refine ⟨rfl, ?_, by decide⟩
  decide

/-- C2 (amended): on any failure exactly one assistant turn is appended,
prefixed `"Error: "`, and the text is classified in priority order — status
429 first (before any body inspection), then a present non-empty `error`
field as a server error, then the generic HTTP message (also when the
`error` field is absent or empty), a missing response as the fixed network
message, and any other local failure as its raw description. -/
theorem failure_message_spec (st : ChatState) (f : PostFailure)
    (hg : ((jsTrim st.question == "") || st.isLoading) = false) :
    (handleSendClick st (.failure f)).1.conversation =
        st.conversation ++
          [⟨.user, jsTrim st.question, none⟩,
           ⟨.ai, "Error: " ++ errorMessageOf f, some []⟩] ∧
      (∀ r, f = .response r → r.status = 429 →
        ∃ rest, errorMessageOf f = "API Quota Error (429)" ++ rest) ∧
      (∀ r e, f = .response r → r.status ≠ 429 → r.errorField = some e → e ≠ "" →
        errorMessageOf f = "Server Error (" ++ toString r.status ++ "): " ++ e) ∧
      (∀ r, f = .response r → r.status ≠ 429 →
        (r.errorField = none ∨ r.errorField = some "") →
        errorMessageOf f = "HTTP Error " ++ toString r.status ++ ": " ++ r.statusText) ∧
      (f = .noResponse →
        errorMessageOf f = "Network Error: The server did not respond.") ∧
      (∀ m, f = .setup m → errorMessageOf f = m) := by
  refine ⟨?_, ?_, ?_, ?_, ?_, ?_⟩
  · simp [handleSendClick, hg, handleUserMessage, handleAiMessage]
  · rintro r rfl h429
    exact ⟨": Your daily/minute limit has been reached. Please wait.",
      by simp [errorMessageOf, h429]⟩
  · rintro r e rfl h429 he hne
    simp [errorMessageOf, h429, jsTruthyStr, he, hne]
  · rintro r rfl h429 (he | he) <;> simp [errorMessageOf, h429, jsTruthyStr, he]
  · rintro rfl
    rfl
  · rintro m rfl
    rfl

/-- Witness for `failure_message_spec`: a network failure (request made, no
response) appends exactly the fixed network-error assistant turn. -/
theorem failure_message_spec_witness :
    ((jsTrim "add milk" == "") || false) = false ∧
      (handleSendClick ⟨"add milk", false, [], false⟩
          (.failure .noResponse)).1.conversation =
        [⟨.user, "add milk", none⟩,
         ⟨.ai, "Error: Network Error: The server did not respond.", some []⟩] := by
  refine ⟨by decide, ?_⟩
  have h := failure_message_spec ⟨"add milk", false, [], false⟩ .noResponse (by decide)
  have h1 := h.1
  rw [h1]
  decide

/-- C6: the refetch signal is set to the constant `true`, never toggled, so
only a submission that finds it `false` changes the `[triggerFetch]`
dependency. The first completed submission flips it `false → true` and
fires one refetch; a second completed submission leaves it `true`, the
dependency is unchanged, and no refetch fires — not one per submission. -/
theorem trigger_refetch_fires_once_total :
    let r : PostResult := .success ⟨some "ok", none⟩
    let first := handleSendClick ⟨"add milk", false, [], false⟩ r
    let second := handleSendClick { first.1 with question := "add eggs" } r
    first.2 = true ∧ second.2 = true ∧
      refetchFires false first.1.triggerFetch = true ∧
      first.1.triggerFetch = true ∧ second.1.triggerFetch = true ∧
      refetchFires first.1.triggerFetch second.1.triggerFetch = false := by
  decide

/-- C7: an empty `GET /expiry` array response is *not* answered with the
reassuring message — `[]` fails the `length > 0` test but is
`typeof "object"` and non-null, so the `JSON.stringify` dump branch
produces `"Expiring items:\n\n[]"`; the reassuring message is reserved for
an absent body (or any non-object value such as `null`). -/
theorem expiry_empty_array_dump :
    handleCheckExpiries [] (.ok (some (.arr []))) =
      [⟨.user, "Show me a list of all expiring items in the next 7 days.", none⟩,
       ⟨.ai, "Expiring items:\n\n[]", some []⟩] ∧
      expiryMessage (some (.arr [])) ≠ "Great news! No items are expiring soon." ∧
      expiryMessage none = "Great news! No items are expiring soon." ∧
      expiryMessage (some .null) = "Great news! No items are expiring soon." := by
  refine ⟨by decide, by decide, rfl, rfl⟩

/-- C10: in every conversation reachable through the app's flows, every
assistant turn carries `reminders = []` — each flow appends assistant turns
only through `handleAiMessage` with the `reminders` argument omitted, and
that argument defaults to the empty list. -/
theorem ai_reminders_always_empty (conv : List ChatMessage)
    (hr : ReachableConv conv) :
    ∀ m ∈ conv, m.role = .ai → m.reminders = some [] := by
  induction hr with
  | init =>
      intro m hm
      simp at hm
  | user conv s _ ih =>
      intro m hm hrole
      rcases List.mem_append.1 hm with h | h
      · exact ih m h hrole
      · simp at h
        rw [h] at hrole
        simp at hrole
  | send st r _ ih =>
      intro m hm hrole
      by_cases hc : ((jsTrim st.question == "") || st.isLoading) = true
      · rw [handleSendClick, if_pos hc] at hm
        exact ih m hm hrole
      · rw [handleSendClick, if_neg hc] at hm
        cases r with
        | success s =>
            simp only [handleAiMessage, handleUserMessage, List.append_assoc,
              List.mem_append] at hm
            rcases hm with h | h
            · exact ih m h hrole
            · simp at h
              rcases h with h | h
              · rw [h] at hrole
                simp at hrole
              · rw [h]
        | failure f =>
            simp only [handleAiMessage, handleUserMessage, List.append_assoc,
              List.mem_append] at hm
            rcases hm with h | h
            · exact ih m h hrole
            · simp at h
              rcases h with h | h
              · rw [h] at hrole
                simp at hrole
              · rw [h]
  | expiry conv o _ ih =>
      intro m hm hrole
      cases o with
      | ok d =>
          simp only [handleCheckExpiries, handleAiMessage, handleUserMessage,
            List.append_assoc, List.mem_append] at hm
          rcases hm with h | h
          · exact ih m h hrole
          · simp at h
            rcases h with h | h
            · rw [h] at hrole
              simp at hrole
            · rw [h]
      | fail =>
          simp only [handleCheckExpiries, handleAiMessage, handleUserMessage,
            List.append_assoc, List.mem_append] at hm
          rcases hm with h | h
          · exact ih m h hrole
          · simp at h
            rcases h with h | h
            · rw [h] at hrole
              simp at hrole
            · rw [h]

/-- Witness for `ai_reminders_always_empty`: the assistant turn of one
completed submission sits in a reachable conversation and carries the
empty reminders list. -/
theorem ai_reminders_always_empty_witness :
    ((⟨Role.ai, "ok", some []⟩ : ChatMessage) ∈
        (handleSendClick ⟨"hi", false, [], false⟩
          (.success ⟨some "ok", none⟩)).1.conversation) ∧
      (⟨Role.ai, "ok", some []⟩ : ChatMessage).reminders = some [] :=
  ⟨by decide,
    ai_reminders_always_empty _
      (ReachableConv.send ⟨"hi", false, [], false⟩ (.success ⟨some "ok", none⟩)
        ReachableConv.init)
      ⟨Role.ai, "ok", some []⟩ (by decide) rfl⟩
